import Mathlib

/-!
Verification of the single-file Flask application `app.py`.

The source (after bringing in `os` and, from `flask`, the names `Flask` and
`render_template`) is:

  app = Flask(__name__)

  @app.route("/")
  def index():
      return render_template("index.html")

  if __name__ == "__main__":
      # For local development only; production uses gunicorn
      port = int(os.environ.get("PORT", 5000))
      debug = os.environ.get("FLASK_DEBUG", "false").lower() == "true"
      app.run(host="0.0.0.0", port=port, debug=debug)

We shallowly embed the configuration resolution (Python `int` parsing of
decimal strings, `os.environ.get`, `str.lower`), the route table registered on
the application object, and the request-dispatch semantics of the framework
(which is an external dependency; its dispatch behaviour is modelled from the
specification's description of it). Fallible operations return `Option`.
-/

/-- An environment is an association list from variable names to string
values; `none` on lookup models an unset variable, while a present empty
string stays distinguishable from absence (as with `os.environ`). -/
def Env : Type := List (String × String)

/-- `os.environ.get(k)`: the value of the first binding of `k`, if any. -/
def Env.get? (e : Env) (k : String) : Option String :=
  (List.find? (fun p => p.1 == k) e).map Prod.snd

/-- Validity of the digit tail of a Python integer literal after its first
digit: digits, with single underscores allowed only between two digits. -/
def pyDigitsRest : List Char → Bool
  | [] => true
  | '_' :: [] => false
  | '_' :: c :: cs => c.isDigit && pyDigitsRest cs
  | c :: cs => c.isDigit && pyDigitsRest cs

/-- Validity of the digit part of a Python decimal integer literal: at least
one digit, underscores only between digits. -/
def pyDigitsOk : List Char → Bool
  | [] => false
  | c :: cs => c.isDigit && pyDigitsRest cs

/-- Numeric value of a list of decimal digits (underscores already removed). -/
def digitsToNat (cs : List Char) : Nat :=
  cs.foldl (fun acc c => 10 * acc + (c.toNat - '0'.toNat)) 0

/-- Strip leading and trailing whitespace from a character list, as Python
`int` does before parsing. -/
def pyStripWs (cs : List Char) : List Char :=
  ((cs.dropWhile Char.isWhitespace).reverse.dropWhile Char.isWhitespace).reverse

/-- Remove underscore digit separators. -/
def dropUnderscores (cs : List Char) : List Char :=
  cs.filter (fun c => c != '_')

/-- Python `int(s)` on a decimal string: optional surrounding whitespace, an
optional sign, then digits with single underscores allowed between digits.
`none` models the `ValueError` raised on any other input (in particular the
empty string). -/
def pyInt (s : String) : Option Int :=
  match pyStripWs s.toList with
  | '-' :: rest =>
      if pyDigitsOk rest then some (-(digitsToNat (dropUnderscores rest) : Int)) else none
  | '+' :: rest =>
      if pyDigitsOk rest then some ((digitsToNat (dropUnderscores rest) : Int)) else none
  | rest =>
      if pyDigitsOk rest then some ((digitsToNat (dropUnderscores rest) : Int)) else none

/-- `port = int(os.environ.get("PORT", 5000))`: when `PORT` is unset the
default `5000` (already an integer) is used; when it is set, its string value
is parsed, and `none` models the `ValueError` that aborts startup. -/
def resolvePort (env : Env) : Option Int :=
  match env.get? "PORT" with
  | none => some 5000
  | some s => pyInt s

/-- Python `s.lower()` (restricted to ASCII, which is all the comparison with
the ASCII literal `"true"` can be sensitive to): lower-case each character. -/
def pyLower (s : String) : String :=
  String.mk (s.data.map Char.toLower)

/-- `debug = os.environ.get("FLASK_DEBUG", "false").lower() == "true"`. -/
def resolveDebug (env : Env) : Bool :=
  pyLower ((env.get? "FLASK_DEBUG").getD "false") == "true"

/-- HTTP methods relevant to dispatch. -/
inductive HttpMethod
  | GET | HEAD | OPTIONS | POST | PUT | DELETE | PATCH
deriving DecidableEq, Repr

/-- A registered route: a URL path together with the methods it accepts. -/
structure Route where
  path : String
  methods : List HttpMethod
deriving DecidableEq, Repr

/-- The route table of the application object `app`: the single registration
`@app.route("/")`. A Flask route declared without an explicit `methods`
argument accepts `GET`, and the framework automatically adds `HEAD` and
`OPTIONS`. -/
def appRoutes : List Route :=
  [{ path := "/", methods := [.GET, .HEAD, .OPTIONS] }]

/-- The template directory contents: a map from template file names to their
rendered text, `none` modelling a missing file or a render failure. -/
def Templates : Type := String → Option String

/-- The handler `index`: `return render_template("index.html")`. -/
def index (fs : Templates) : Option String :=
  fs "index.html"

/-- An HTTP response as seen by the client. -/
structure Response where
  status : Nat
  contentType : Option String
  body : String
deriving DecidableEq, Repr

/-- Modelled from the spec: the framework's standard not-found response for a
path with no registered handler (the Flask code producing it is an external
dependency, not in this repository). -/
def notFoundResponse : Response :=
  { status := 404, contentType := some "text/html", body := "" }

/-- Modelled from the spec: the framework's standard response when the path
matches a route but the method is not among the route's accepted methods. -/
def methodNotAllowedResponse : Response :=
  { status := 405, contentType := some "text/html", body := "" }

/-- Modelled from the spec: the framework's standard error response when the
handler raises (here: the template is missing or fails to render). -/
def internalErrorResponse : Response :=
  { status := 500, contentType := some "text/html", body := "" }

/-- Modelled from the spec: the framework's request dispatch over the
application's route table. A matching path with an accepted method invokes the
handler `index`; a string returned by a handler becomes a 200 response with
content-type `text/html`; a raising handler yields the standard 500; an
unregistered path yields 404 and a disallowed method 405. -/
def dispatch (fs : Templates) (m : HttpMethod) (path : String) : Response :=
  match List.find? (fun r => r.path == path) appRoutes with
  | none => notFoundResponse
  | some r =>
      if m ∈ r.methods then
        match index fs with
        | some body => { status := 200, contentType := some "text/html", body := body }
        | none => internalErrorResponse
      else methodNotAllowedResponse

/-- The arguments of the `app.run(host=..., port=..., debug=...)` call; the
call itself blocks and serves requests until the process terminates, so an
emitted `RunCall` stands for that serving loop. -/
structure RunCall where
  host : String
  port : Int
  debug : Bool
deriving DecidableEq, Repr

/-- What happened at module level after the `if __name__ == "__main__"`
guard: nothing (imported), a server start, or a `ValueError` from `int`
aborting the process before any socket is bound. -/
inductive StartOutcome
  | notStarted
  | started (c : RunCall)
  | startupError
deriving DecidableEq, Repr

/-- The observable effects of executing the module `app.py`. -/
structure ModuleExec where
  routes : List Route
  envReads : List String
  outcome : StartOutcome
deriving DecidableEq, Repr

/-- Executing the module: the application object with its one route is always
constructed; only when run directly (`isMain`) is the environment read, and
`app.run` is reached only if `int(os.environ.get("PORT", 5000))` succeeds
(the `FLASK_DEBUG` read on the next line happens only in that case). -/
def runModule (isMain : Bool) (env : Env) : ModuleExec :=
  if isMain then
    match resolvePort env with
    | none => { routes := appRoutes, envReads := ["PORT"], outcome := .startupError }
    | some p =>
        { routes := appRoutes
          envReads := ["PORT", "FLASK_DEBUG"]
          outcome := .started { host := "0.0.0.0", port := p, debug := resolveDebug env } }
  else
    { routes := appRoutes, envReads := [], outcome := .notStarted }

/- ## Theorems -/

/-- C1: when `index.html` exists (renders to some content), `GET /` returns
that rendered content with status 200 and content-type `text/html`. -/
theorem c1_get_root_renders_index (fs : Templates) (content : String)
    (h : fs "index.html" = some content) :
    dispatch fs .GET "/" =
      { status := 200, contentType := some "text/html", body := content } := by
  simp [dispatch, appRoutes, index, h, List.find?]

/-- C1 witness: a concrete template directory containing `index.html`. -/
theorem c1_witness :
    dispatch (fun n => if n == "index.html" then some "<html></html>" else none) .GET "/" =
      { status := 200, contentType := some "text/html", body := "<html></html>" } :=
  c1_get_root_renders_index _ "<html></html>" rfl

/-- C2: when run directly, the server starts with port equal to the integer
parse of `PORT` when set, and with port 5000 when `PORT` is absent. -/
theorem c2_port_resolution (env : Env) :
    (env.get? "PORT" = none →
      (runModule true env).outcome =
        .started { host := "0.0.0.0", port := 5000, debug := resolveDebug env }) ∧
    (∀ s n, env.get? "PORT" = some s → pyInt s = some n →
      (runModule true env).outcome =
        .started { host := "0.0.0.0", port := n, debug := resolveDebug env }) := by
  constructor
  · intro h
    simp [runModule, resolvePort, h]
  · intro s n hs hn
    simp [runModule, resolvePort, hs, hn]

/-- C2 witness: `PORT=8080` yields port 8080, and an empty environment yields
port 5000. -/
theorem c2_witness :
    (runModule true [("PORT", "8080")]).outcome =
      .started { host := "0.0.0.0", port := 8080, debug := false } ∧
    (runModule true []).outcome =
      .started { host := "0.0.0.0", port := 5000, debug := false } := by
  have h1 := (c2_port_resolution [("PORT", "8080")]).2 "8080" 8080 rfl (by decide)
  have h2 := (c2_port_resolution []).1 rfl
  rw [show resolveDebug [("PORT", "8080")] = false from by decide] at h1
  rw [show resolveDebug [] = false from by decide] at h2
  exact ⟨h1, h2⟩

/-- C3: the resolved debug flag is true iff `FLASK_DEBUG` is set to a string
equal, case-insensitively, to `"true"`; absent or any other value gives
false. -/
theorem c3_debug_flag (env : Env) :
    resolveDebug env = true ↔
      ∃ s, env.get? "FLASK_DEBUG" = some s ∧ pyLower s = "true" := by
  unfold resolveDebug
  cases h : env.get? "FLASK_DEBUG" with
  | none =>
      simp only [Option.getD, h]
      constructor
      · intro hfalse
        exact absurd hfalse (by decide)
      · rintro ⟨s, hs, -⟩
        cases hs
  | some s =>
      simp [Option.getD, h, beq_iff_eq]

/-- C4: whenever running the module directly starts the server, the listen
host is `0.0.0.0` and the port is the resolved port. -/
theorem c4_run_host_port (env : Env) (c : RunCall)
    (h : (runModule true env).outcome = .started c) :
    c.host = "0.0.0.0" ∧ resolvePort env = some c.port := by
  unfold runModule at h
  simp at h
  cases hp : resolvePort env with
  | none => rw [hp] at h; cases h
  | some p =>
      rw [hp] at h
      cases h
      exact ⟨rfl, rfl⟩

/-- C4 witness: with an empty environment the server starts on host
`0.0.0.0`, and the resolved port is its port. -/
theorem c4_witness :
    ({ host := "0.0.0.0", port := 5000, debug := false } : RunCall).host = "0.0.0.0" ∧
    resolvePort [] = some ({ host := "0.0.0.0", port := 5000, debug := false } : RunCall).port :=
  c4_run_host_port [] _ (by decide)

/-- C5: when the module is imported rather than run directly, no environment
variable is read and no server is started; the application object with its
route table is still exposed. -/
theorem c5_import_is_pure (env : Env) :
    runModule false env = { routes := appRoutes, envReads := [], outcome := .notStarted } := by
  simp [runModule]

/-- C6: exactly one route is registered, and every path other than `/`
dispatches to the framework's standard not-found response. -/
theorem c6_single_route (fs : Templates) (m : HttpMethod) (p : String)
    (h : p ≠ "/") :
    appRoutes.length = 1 ∧ dispatch fs m p = notFoundResponse := by
  refine ⟨rfl, ?_⟩
  have hne : ("/" == p) = false := by
    cases hb : ("/" == p)
    · rfl
    · exact absurd (eq_of_beq hb).symm h
  simp [dispatch, appRoutes, List.find?, hne]

/-- C6 witness: a request for `/missing` gets the not-found response. -/
theorem c6_witness :
    appRoutes.length = 1 ∧
      dispatch (fun _ => none) .GET "/missing" = notFoundResponse :=
  c6_single_route (fun _ => none) .GET "/missing" (by decide)

/-- C7: when `index.html` is missing or fails to render, `GET /` yields the
framework's standard 500 response. -/
theorem c7_missing_template_500 (fs : Templates)
    (h : fs "index.html" = none) :
    dispatch fs .GET "/" = internalErrorResponse := by
  simp [dispatch, appRoutes, index, h, List.find?]

/-- C7 witness: an empty template directory. -/
theorem c7_witness :
    dispatch (fun _ => none) .GET "/" = internalErrorResponse :=
  c7_missing_template_500 (fun _ => none) rfl

/-- C8: when `PORT` is set to a value that does not parse as an integer,
running the module directly ends in a startup error before any server
starts. -/
theorem c8_invalid_port_aborts (env : Env) (s : String)
    (h1 : env.get? "PORT" = some s) (h2 : pyInt s = none) :
    (runModule true env).outcome = .startupError := by
  simp [runModule, resolvePort, h1, h2]

/-- C8 witness: `PORT=abc` aborts startup. -/
theorem c8_witness :
    (runModule true [("PORT", "abc")]).outcome = .startupError :=
  c8_invalid_port_aborts [("PORT", "abc")] "abc" rfl (by decide)

/-- C9: setting `PORT` to the empty string raises a parse error at startup
rather than falling back to 5000; the default applies only when `PORT` is
absent. -/
theorem c9_empty_port_errors :
    pyInt "" = none ∧
    (runModule true [("PORT", "")]).outcome = .startupError ∧
    (runModule true []).outcome =
      .started { host := "0.0.0.0", port := 5000, debug := false } := by
  refine ⟨by decide, by decide, by decide⟩

/-- C10: every method other than GET (and the automatically added HEAD and
OPTIONS) sent to `/` gets the framework's standard 405 response. -/
theorem c10_method_not_allowed (fs : Templates) (m : HttpMethod)
    (h : m ∉ ([.GET, .HEAD, .OPTIONS] : List HttpMethod)) :
    dispatch fs m "/" = methodNotAllowedResponse := by
  simp [dispatch, appRoutes, List.find?, h]

/-- C10 witness: `POST /` gets the 405 response. -/
theorem c10_witness :
    dispatch (fun _ => some "x") .POST "/" = methodNotAllowedResponse :=
  c10_method_not_allowed (fun _ => some "x") .POST (by decide)
